import Mathlib

/-!
Shallow embedding of the mini-lang front end and evaluator
(src/src/lexer.py, src/src/parser.py, src/src/ast.py, src/src/atoms.py,
src/src/evaluator.py), together with theorems settling the claims about
the repository.

Modelling conventions:
* Python numbers are a sum of `int` and `float`; floats are modelled as
  exact rationals.  No claim exercises IEEE-754 rounding, so this is
  faithful on every input appearing below.
* All recursive interpreter functions take an explicit fuel argument and
  mirror the Python call structure; every recursive call decrements the
  fuel by one, so any terminating Python run is reproduced exactly by
  giving enough fuel.  Fuel exhaustion is a distinguished error that
  never occurs in the concrete runs below.
* Python exceptions are modelled by `Except String`; the exact message
  texts are abbreviated but identify the raise site.
* `Environment` (imported by the evaluator from `.environment`, a module
  that is not part of the sources) is modelled from the spec, see below.
* Character classification (`str.isalnum` etc.) is modelled by the ASCII
  classifiers; all sources in the claims are ASCII.
-/

/-- A Python number as used by the lexer and evaluator: the lexer collapses
integer-valued literals to `int` (lexer.py line 217), and arithmetic
follows Python promotion (int op int stays int except true division).
Floats are modelled as exact rationals; no claim exercises rounding. -/
inductive PyNum where
  | int (i : Int)
  | float (q : Rat)
  deriving Repr, DecidableEq

namespace PyNum

/-- The numeric value of a Python number. -/
def toRat : PyNum → Rat
  | int i => (i : Rat)
  | float q => q

/-- Python `==` on numbers compares numeric values (`1 == 1.0` is true). -/
def numEq (a b : PyNum) : Bool := a.toRat = b.toRat

/-- Python `float.is_integer` / promotion test. -/
def isInteger : PyNum → Bool
  | int _ => true
  | float q => q.den = 1

/-- Python `+` with int/float promotion. -/
def add : PyNum → PyNum → PyNum
  | int a, int b => int (a + b)
  | a, b => float (a.toRat + b.toRat)

/-- Python `-` with int/float promotion. -/
def sub : PyNum → PyNum → PyNum
  | int a, int b => int (a - b)
  | a, b => float (a.toRat - b.toRat)

/-- Python `*` with int/float promotion. -/
def mul : PyNum → PyNum → PyNum
  | int a, int b => int (a * b)
  | a, b => float (a.toRat * b.toRat)

/-- Python unary `-`. -/
def neg : PyNum → PyNum
  | int a => int (-a)
  | float q => float (-q)

/-- Python `/`: true division, always a float; division by zero raises
`ZeroDivisionError` (Python raises rather than producing an IEEE infinity). -/
def div (a b : PyNum) : Except String PyNum :=
  if b.toRat = 0 then Except.error "ZeroDivisionError: division by zero"
  else Except.ok (float (a.toRat / b.toRat))

/-- Python `%`: floor-style modulo (result has the sign of the divisor);
int % int is an int; modulo by zero raises. -/
def mod (a b : PyNum) : Except String PyNum :=
  if b.toRat = 0 then Except.error "ZeroDivisionError: modulo by zero"
  else match a, b with
    | int x, int y => Except.ok (int (Int.fmod x y))
    | _, _ =>
      let q := a.toRat
      let d := b.toRat
      Except.ok (float (q - d * (Int.floor (q / d) : Rat)))

/-- Python `**`.  Integer base and non-negative integer exponent give an
int; a negative integer exponent gives a float.  A fractional exponent
would in general be irrational; the model rejects it (no claim and no
program below exercises that case). -/
def pow (a b : PyNum) : Except String PyNum :=
  match b with
  | int e =>
    match a with
    | int x =>
      if 0 ≤ e then Except.ok (int (x ^ e.toNat))
      else if x = 0 then Except.error "ZeroDivisionError: zero to a negative power"
      else Except.ok (float ((x : Rat) ^ e))
    | float q =>
      if 0 ≤ e then Except.ok (float (q ^ e.toNat))
      else if q = 0 then Except.error "ZeroDivisionError: zero to a negative power"
      else Except.ok (float (q ^ e))
  | float e =>
    if e.den = 1 then
      if 0 ≤ e.num then Except.ok (float (a.toRat ^ e.num.toNat))
      else if a.toRat = 0 then Except.error "ZeroDivisionError: zero to a negative power"
      else Except.ok (float (a.toRat ^ e.num))
    else Except.error "model limitation: fractional exponent"

/-- Python `int(...)` truncation toward zero, used for slice indices. -/
def trunc : PyNum → Int
  | int i => i
  | float q => Int.tdiv q.num (q.den : Int)

end PyNum

/-- A dynamically typed Python payload as stored in tokens and atomic AST
nodes (token values are strings, numbers, booleans or absent). -/
inductive Payload where
  | null
  | s (v : String)
  | n (v : PyNum)
  | b (v : Bool)
  deriving Repr, DecidableEq

/-- Python `str(...)` of a payload, used for map-literal keys
(`map_values[str(key.value)]`, evaluator.py line 113). -/
def Payload.pyStr : Payload → String
  | Payload.null => "None"
  | Payload.s v => v
  | Payload.n (PyNum.int i) => toString i
  | Payload.n (PyNum.float q) => toString q
  | Payload.b v => if v then "True" else "False"

/-- The AST of src/src/ast.py: one constructor per `Node` subclass.
`AtomicNode.valueType` is the semantic kind tag (the evaluator reads the
same field under the name `type`).  `SliceNode` is imported by the
evaluator but missing from the sources; modelled from the spec:
"Slice — start, end, optional step (used only as the right operand of
INDEX)". -/
inductive Node where
  | programNode (expressions : List Node)
  | atomicNode (valueType : String) (value : Payload)
  | blockNode (expressions : List Node)
  | tupleNode (elements : List Node)
  | listNode (elements : List Node)
  | mapNode (pairs : List (Node × Node))
  | unaryNode (operator : String) (rhs : Node)
  | binaryNode (operator : String) (left : Node) (right : Node)
  | lambdaNode (params : List Payload) (body : Node)
  | ifNode (condition : Node) (ifBody : Node) (elseIfs : List (Node × Node))
      (elseBody : Option Node)
  | sliceNode (start : Node) (stop : Node) (step : Option Node)
  deriving Repr

/-- The `name` attribute set by each `Node` subclass constructor
(ast.py: `super().__init__("Program")` and so on). -/
def Node.pyName : Node → String
  | Node.programNode _ => "Program"
  | Node.atomicNode _ _ => "Atomic"
  | Node.blockNode _ => "Block"
  | Node.tupleNode _ => "Tuple"
  | Node.listNode _ => "List"
  | Node.mapNode _ => "Map"
  | Node.unaryNode _ _ => "Unary"
  | Node.binaryNode _ _ _ => "Binary"
  | Node.lambdaNode _ _ => "Lambda"
  | Node.ifNode _ _ _ _ => "If"
  | Node.sliceNode _ _ _ => "Slice"

/-- Python `str.lower` (ASCII). -/
def str_lower (s : String) : String := String.mk (s.data.map Char.toLower)

/-- Python `str.upper` (ASCII). -/
def str_upper (s : String) : String := String.mk (s.data.map Char.toUpper)

/-- A token (lexer.py `Token`): kind name, payload, source position. -/
structure Token where
  name : String
  value : Payload
  line : Nat
  column : Nat
  deriving Repr, DecidableEq

/-- Lexer state.  The character queue plus the unread source are modelled
as a single list (`__queue_request` reads from the source on demand, so
the pair behaves as one stream); `prev_char` is the previously read
character and `line`/`column` the 1-based position. -/
structure LexState where
  input : List Char
  prev_char : Option Char
  line : Nat
  column : Nat
  deriving Repr, DecidableEq

/-- Initial lexer state for a source string. -/
def lexInit (src : String) : LexState := ⟨src.toList, none, 1, 1⟩

/-- lexer.py `__next_char`: pop one character, tracking position (newline
resets the column and bumps the line, tab advances by 4) and `prev_char`. -/
def next_char (st : LexState) : Option Char × LexState :=
  match st.input with
  | [] => (none, st)
  | c :: rest =>
    if c = '\n' then (some c, ⟨rest, some c, st.line + 1, 1⟩)
    else if c = '\t' then (some c, ⟨rest, some c, st.line, st.column + 4⟩)
    else (some c, ⟨rest, some c, st.line, st.column + 1⟩)

/-- lexer.py `__peek_char`: look ahead without consuming; `'\0'` at end. -/
def peek_char (st : LexState) (offset : Nat) : Char :=
  st.input.getD offset '\x00'

/-- lexer.py `__token`: a token at the current position. -/
def mk_token (st : LexState) (name : String) (value : Payload) : Token :=
  ⟨name, value, st.line, st.column⟩

/-- lexer.py `__is_end_of_expression`: the previous character closes an
expression that can be applied or indexed. -/
def is_end_of_expression : Option Char → Bool
  | none => false
  | some c => c.isAlphanum || c = '_' || c = ']' || c = '}' || c = ')'

/-- Numeric token payload from the scanned digit string (lexer.py
`float(s)` followed by the int collapse for integer values). -/
def parse_number_string (s : String) : PyNum :=
  match s.splitOn "." with
  | [ip] => PyNum.int ((ip.toNat?).getD 0 : Int)
  | [ip, fp] =>
    let ipn : Nat := (ip.toNat?).getD 0
    let fpn : Nat := (fp.toNat?).getD 0
    let q : Rat := (ipn : Rat) + (fpn : Rat) / ((10 : Rat) ^ fp.length)
    if q.den = 1 then PyNum.int q.num else PyNum.float q
  | _ => PyNum.int 0

/-- lexer.py `__read_string`: scan until the closing quote, honouring the
escape sequences `\n \t \r \\ \" \'`.  (The `while can_read` guard in the
source is always true for a readable stream, so exhaustion surfaces as the
`expect_char` EOF error.) -/
def read_string : Nat → LexState → Char → String → Except String (Token × LexState)
  | 0, _, _, _ => Except.error "model: out of fuel"
  | fuel+1, st, quote, acc =>
    match next_char st with
    | (none, _) => Except.error "Syntax Error: Expected string content, escape sequence, or closing quote but got EOF"
    | (some c, st1) =>
      if c = quote then Except.ok (mk_token st1 "STRING" (Payload.s acc), st1)
      else if c = '\\' then
        match next_char st1 with
        | (none, _) => Except.error "Syntax Error: Expected string escape sequence but got EOF"
        | (some e, st2) =>
          if e = 'n' then read_string fuel st2 quote (acc.push '\n')
          else if e = 't' then read_string fuel st2 quote (acc.push '\t')
          else if e = 'r' then read_string fuel st2 quote (acc.push '\r')
          else if e = '\\' then read_string fuel st2 quote (acc.push '\\')
          else if e = '"' ∨ e = '\x27' then read_string fuel st2 quote (acc.push e)
          else Except.error "Syntax Error: Invalid escape sequence"
      else read_string fuel st1 quote (acc.push c)

/-- lexer.py `__read_identifier`: extend `[A-Za-z0-9_]*`. -/
def read_identifier : Nat → LexState → String → Except String (Token × LexState)
  | 0, _, _ => Except.error "model: out of fuel"
  | fuel+1, st, acc =>
    let nc := peek_char st 0
    if nc.isAlphanum ∨ nc = '_' then
      match next_char st with
      | (none, _) => Except.error "Syntax Error: Expected identifier character but got EOF"
      | (some c, st1) => read_identifier fuel st1 (acc.push c)
    else Except.ok (mk_token st "IDENTIFIER" (Payload.s acc), st)

/-- The scan loop of lexer.py `__read_number`.  The first peek `nc` is
refreshed after every consumed character, but the second peek `nnc` is
computed once before the loop (lexer.py line 205) and never updated, so
it is a fixed parameter here: only a `..` visible at the second position
on entry keeps the range operator out of the number. -/
def read_number_loop : Nat → LexState → String → Bool → Char →
    Except String (Token × LexState)
  | 0, _, _, _, _ => Except.error "model: out of fuel"
  | fuel+1, st, acc, decimalPoint, nnc =>
    let nc := peek_char st 0
    if (nc.isDigit ∨ nc = '.') ∧ ¬(nc = '.' ∧ nnc = '.') then
      if nc = '.' ∧ decimalPoint then
        Except.ok (mk_token st "NUMBER" (Payload.n (parse_number_string acc)), st)
      else
        match next_char st with
        | (none, _) => Except.error "Syntax Error: Expected digit or decimal point but got EOF"
        | (some c, st1) => read_number_loop fuel st1 (acc.push c) (decimalPoint ∨ c = '.') nnc
    else Except.ok (mk_token st "NUMBER" (Payload.n (parse_number_string acc)), st)
termination_by structural fuel _ _ _ _ => fuel

/-- lexer.py `__read_number`: digits with at most one decimal point; the
produced payload collapses integer values to ints. -/
def read_number (fuel : Nat) (st : LexState) (first : String) :
    Except String (Token × LexState) :=
  read_number_loop fuel st first false (peek_char st 1)

/-- lexer.py single-line comment body: scan to (but not including) the next
newline.  (As in the source, hitting EOF inside the comment raises the
`expect_char` error because `can_read` is always true.) -/
def read_line_comment : Nat → LexState → String → Except String (Token × LexState)
  | 0, _, _ => Except.error "model: out of fuel"
  | fuel+1, st, acc =>
    if peek_char st 0 = '\n' then Except.ok (mk_token st "COMMENT" (Payload.s acc), st)
    else match next_char st with
      | (none, _) => Except.error "Syntax Error: Expected comment content but got EOF"
      | (some c, st1) => read_line_comment fuel st1 (acc.push c)

/-- lexer.py multi-line comment body: scan to the closing `*/`. -/
def read_block_comment : Nat → LexState → String → Except String (Token × LexState)
  | 0, _, _ => Except.error "model: out of fuel"
  | fuel+1, st, acc =>
    match next_char st with
    | (none, _) => Except.error "Syntax Error: Expected comment content but got EOF"
    | (some c, st1) =>
      if c = '*' ∧ peek_char st1 0 = '/' then
        match next_char st1 with
        | (none, _) => Except.error "Syntax Error: Expected multi line comment end but got EOF"
        | (some _, st2) => Except.ok (mk_token st2 "COMMENT" (Payload.s acc), st2)
      else read_block_comment fuel st1 (acc.push c)

/-- The keyword list of lexer.py line 248. -/
def keyword_list : List String :=
  ["if", "else", "match", "class", "enum", "while", "for", "break", "continue", "return"]

/-- lexer.py `__read_token`: skip whitespace, scan literals, identifiers
(with keyword reclassification), comments and operators.  `(` and `[`
are classified by `is_end_of_expression` applied to the character read
immediately before them. -/
def read_token : Nat → LexState → Except String (Token × LexState)
  | 0, _ => Except.error "model: out of fuel"
  | fuel+1, st =>
    match next_char st with
    | (none, st1) => Except.ok (mk_token st1 "EOF" Payload.null, st1)
    | (some c, st1) =>
      if c = '\x00' then Except.ok (mk_token st1 "EOF" Payload.null, st1)
      else
      let pc := st.prev_char
      let nc := peek_char st1 0
      if c = ' ' ∨ c = '\t' ∨ c = '\n' ∨ c = '\r' then read_token fuel st1
      else if c = '"' ∨ c = '\x27' then read_string fuel st1 c ""
      else if c.isDigit then read_number fuel st1 (String.singleton c)
      else if c.isAlpha ∨ c = '_' then do
        let (t, st2) ← read_identifier fuel st1 (String.singleton c)
        match t.value with
        | Payload.s s =>
          if s = "true" ∨ s = "false" then
            Except.ok (mk_token st2 "BOOL" (Payload.b (s = "true")), st2)
          else if s ∈ keyword_list then
            Except.ok (mk_token st2 "KEYWORD" (Payload.s s), st2)
          else if s ∈ ["and", "or", "not", "is", "in"] then
            Except.ok (mk_token st2 (str_upper s) (Payload.s s), st2)
          else Except.ok (t, st2)
        | _ => Except.error "model: identifier token without string value"
      else if c = '/' ∧ nc = '/' then
        match next_char st1 with
        | (none, _) => Except.error "Syntax Error: Expected single line comment start but got EOF"
        | (some _, st2) => read_line_comment fuel st2 ""
      else if c = '/' ∧ nc = '*' then
        match next_char st1 with
        | (none, _) => Except.error "Syntax Error: Expected multi line comment start but got EOF"
        | (some _, st2) => read_block_comment fuel st2 ""
      else if c = '+' ∧ nc = '=' then Except.ok ((next_char st1).2 |> fun s => (mk_token s "PLUSEQUAL" (Payload.s "+="), s))
      else if c = '-' ∧ nc = '=' then Except.ok ((next_char st1).2 |> fun s => (mk_token s "MINUSEQUAL" (Payload.s "-="), s))
      else if c = '*' ∧ nc = '=' then Except.ok ((next_char st1).2 |> fun s => (mk_token s "TIMESEQUAL" (Payload.s "*="), s))
      else if c = '/' ∧ nc = '=' then Except.ok ((next_char st1).2 |> fun s => (mk_token s "DIVEQUAL" (Payload.s "/="), s))
      else if c = '%' ∧ nc = '=' then Except.ok ((next_char st1).2 |> fun s => (mk_token s "MODEQUAL" (Payload.s "%="), s))
      else if c = '^' ∧ nc = '=' then Except.ok ((next_char st1).2 |> fun s => (mk_token s "POWEQUAL" (Payload.s "^="), s))
      else if c = '<' ∧ nc = '=' then Except.ok ((next_char st1).2 |> fun s => (mk_token s "LESSEQUAL" (Payload.s "<="), s))
      else if c = '>' ∧ nc = '=' then Except.ok ((next_char st1).2 |> fun s => (mk_token s "GREATEREQUAL" (Payload.s ">="), s))
      else if c = '!' ∧ nc = '=' then Except.ok ((next_char st1).2 |> fun s => (mk_token s "NOTEQUAL" (Payload.s "!="), s))
      else if c = '=' ∧ nc = '=' then Except.ok ((next_char st1).2 |> fun s => (mk_token s "EQUAL" (Payload.s "=="), s))
      else if c = '=' ∧ nc = '>' then Except.ok ((next_char st1).2 |> fun s => (mk_token s "RIGHTARROW" (Payload.s "=>"), s))
      else if c = '&' ∧ nc = '&' then Except.ok ((next_char st1).2 |> fun s => (mk_token s "AND" (Payload.s "&&"), s))
      else if c = '|' ∧ nc = '|' then Except.ok ((next_char st1).2 |> fun s => (mk_token s "OR" (Payload.s "||"), s))
      else if c = '#' ∧ nc = '{' then Except.ok ((next_char st1).2 |> fun s => (mk_token s "HASHBRACE" (Payload.s "#\x7b"), s))
      else if c = '.' ∧ nc = '.' then Except.ok ((next_char st1).2 |> fun s => (mk_token s "RANGE" (Payload.s ".."), s))
      else if c = '+' then Except.ok (mk_token st1 "PLUS" (Payload.s "+"), st1)
      else if c = '-' then Except.ok (mk_token st1 "MINUS" (Payload.s "-"), st1)
      else if c = '*' then Except.ok (mk_token st1 "MULTIPLY" (Payload.s "*"), st1)
      else if c = '/' then Except.ok (mk_token st1 "DIVIDE" (Payload.s "/"), st1)
      else if c = '%' then Except.ok (mk_token st1 "MODULO" (Payload.s "%"), st1)
      else if c = '^' then Except.ok (mk_token st1 "POWER" (Payload.s "^"), st1)
      else if c = '<' then Except.ok (mk_token st1 "LESS" (Payload.s "<"), st1)
      else if c = '>' then Except.ok (mk_token st1 "GREATER" (Payload.s ">"), st1)
      else if c = '=' then Except.ok (mk_token st1 "ASSIGNMENT" (Payload.s "="), st1)
      else if c = '!' then Except.ok (mk_token st1 "NOT" (Payload.s "!"), st1)
      else if c = '&' then Except.ok (mk_token st1 "BITWISEAND" (Payload.s "&"), st1)
      else if c = '|' then Except.ok (mk_token st1 "BITWISEOR" (Payload.s "|"), st1)
      else if c = '~' then Except.ok (mk_token st1 "BITWISENOT" (Payload.s "~"), st1)
      else if c = '?' then Except.ok (mk_token st1 "QUESTIONMARK" (Payload.s "?"), st1)
      else if c = '.' then Except.ok (mk_token st1 "DOT" (Payload.s "."), st1)
      else if c = ',' then Except.ok (mk_token st1 "COMMA" (Payload.s ","), st1)
      else if c = ':' then Except.ok (mk_token st1 "COLON" (Payload.s ":"), st1)
      else if c = ';' then Except.ok (mk_token st1 "SEMICOLON" (Payload.s ";"), st1)
      else if c = '{' then Except.ok (mk_token st1 "LBRACE" (Payload.s "\x7b"), st1)
      else if c = '}' then Except.ok (mk_token st1 "RBRACE" (Payload.s "\x7d"), st1)
      else if c = '(' then
        if is_end_of_expression pc then Except.ok (mk_token st1 "CALL" (Payload.s "("), st1)
        else Except.ok (mk_token st1 "LPAREN" (Payload.s "("), st1)
      else if c = ')' then Except.ok (mk_token st1 "RPAREN" (Payload.s ")"), st1)
      else if c = '[' then
        if is_end_of_expression pc then Except.ok (mk_token st1 "INDEX" (Payload.s "["), st1)
        else Except.ok (mk_token st1 "LBRACKET" (Payload.s "["), st1)
      else if c = ']' then Except.ok (mk_token st1 "RBRACKET" (Payload.s "]"), st1)
      else Except.error "Syntax Error: Unexpected character"

/-- lexer.py `next_token` with `allow_comment = False`: comments are
absorbed and the next significant token returned (the `prev_comment`
bookkeeping is diagnostic only and is not modelled). -/
def next_token : Nat → LexState → Except String (Token × LexState)
  | 0, _ => Except.error "model: out of fuel"
  | fuel+1, st => do
    let (t, st1) ← read_token (fuel+1) st
    if t.name = "COMMENT" then next_token fuel st1 else Except.ok (t, st1)

/-- The full significant-token stream of a source, up to but excluding the
terminating EOF token. -/
def tokenize : Nat → LexState → Except String (List Token)
  | 0, _ => Except.error "model: out of fuel"
  | fuel+1, st => do
    let (t, st1) ← next_token (fuel+1) st
    if t.name = "EOF" then Except.ok []
    else do
      let ts ← tokenize fuel st1
      Except.ok (t :: ts)

/-! ## Parser (src/src/parser.py)

The parser is modelled over the token list produced by the lexer;
`peek` is the head of the list (the lexer returns `EOF` indefinitely once
the source is exhausted, so an exhausted list reads as `EOF`). -/

/-- The indefinitely repeated end-of-stream token. -/
def eof_token : Token := ⟨"EOF", Payload.null, 0, 0⟩

/-- `lexer.peek_token()` over the token-list model. -/
def peekT (ts : List Token) : Token := ts.headD eof_token

/-- `lexer.next_token()` over the token-list model. -/
def nextT (ts : List Token) : Token × List Token :=
  (ts.headD eof_token, ts.tail)

/-- parser.py `precedence_binary_left`: binding powers of the
left-associative infix operators (a Python dict; lookup of a missing key
raises `KeyError`, modelled by `Option`). -/
def precedence_binary_left : String → Option Nat
  | "POWER" => some 30
  | "NOT" => some 30
  | "MULTIPLY" => some 20
  | "DIVIDE" => some 20
  | "MODULO" => some 20
  | "PLUS" => some 10
  | "MINUS" => some 10
  | "EQUAL" => some 5
  | _ => none

/-- parser.py `precedence_binary_right`: binding powers of the
right-associative infix operators. -/
def precedence_binary_right : String → Option Nat
  | "AND" => some 20
  | "OR" => some 10
  | _ => none

/-- Modelled from the spec: `FunctionCallNode` is imported by the parser
from `.ast` but missing from the sources; per spec 4.2 the function-call
parse produces `Binary(CALL, Atomic(identifier), Tuple(args))`. -/
def FunctionCallNode (fname : Payload) (args : List Node) : Node :=
  Node.binaryNode "CALL" (Node.atomicNode "identifier" fname) (Node.tupleNode args)

/-- Modelled from the spec: `IndexingNode` is imported by the parser from
`.ast` but missing from the sources; per spec 4.2 the index parse produces
`Binary(INDEX, lhs, index)`. -/
def IndexingNode (lhs : Node) (index : Node) : Node :=
  Node.binaryNode "INDEX" lhs index

/-- Modelled from the spec: `AssignmentNode` is imported by the parser from
`.ast` but missing from the sources; per spec 4.2 the assignment parse
produces `Binary(ASSIGNMENT, Atomic(identifier), rhs)`. -/
def AssignmentNode (name : Payload) (rhs : Node) : Node :=
  Node.binaryNode "ASSIGNMENT" (Node.atomicNode "identifier" name) rhs

/-- Modelled from the spec: `LambdaFunctionNode` is imported by the parser
from `.ast` but missing from the sources; per spec 4.2 it is the
`Lambda(params, body)` shape of ast.py's `LambdaNode`. -/
def LambdaFunctionNode (params : List Payload) (body : Node) : Node :=
  Node.lambdaNode params body

/-- The outer Pratt-loop condition of parser.py line 131: the next
operator is left-associative with binding power `≥ precedence`, or
right-associative with binding power `> precedence`.  Both lookups are
guarded by the membership test, so this condition never raises. -/
def outer_loop_cond (l : String) (precedence : Nat) : Bool :=
  (match precedence_binary_left l with
   | some p => p ≥ precedence
   | none => false) ||
  (match precedence_binary_right l with
   | some p => p > precedence
   | none => false)

/-- The inner climb condition of parser.py line 137,
`(l in LEFT and LEFT[l] > LEFT[op]) or (l in RIGHT and RIGHT[l] == RIGHT[op])`,
with Python evaluation order: when `l` is in a table, the unguarded lookup
of `op` in the same table raises `KeyError` if `op` is missing. -/
def inner_climb_cond (l op : String) : Except String Bool :=
  let rightDisj : Except String Bool :=
    match precedence_binary_right l with
    | some rl =>
      match precedence_binary_right op with
      | some ro => Except.ok (rl = ro)
      | none => Except.error ("KeyError: " ++ op)
    | none => Except.ok false
  match precedence_binary_left l with
  | some ll =>
    (match precedence_binary_left op with
     | some lo => if ll > lo then Except.ok true else rightDisj
     | none => Except.error ("KeyError: " ++ op))
  | none => rightDisj

/-- The validation loop of parser.py lines 106-109: each lambda parameter
must satisfy `isinstance(e, AtomicNode) or e.name == "IDENTIFIER"`;
node names are `"Atomic"`, `"Tuple"`, ... so the second disjunct never
holds and any atomic node (of any kind) is accepted, its payload pushed
as a parameter. -/
def lambda_params_of : List Node → Except String (List Payload)
  | [] => Except.ok []
  | e :: rest =>
    match e with
    | Node.atomicNode _ v => do
      let vs ← lambda_params_of rest
      Except.ok (v :: vs)
    | _ => Except.error "Semantic Error: Lambda argument is not an identifier"

mutual

/-- parser.py `__parse_list_of_expressions`: expressions separated by
`delimiter` until `end_delimiter` (which is consumed).  The while
condition re-checks the token peeked *before* a delimiter is consumed
(`nt` is not refreshed after `next_token()`), so after consuming a
delimiter the loop unconditionally parses another expression; a trailing
separator as in `(1,)` therefore fails at the primary parse of the end
token. -/
def parse_list_of_expressions : Nat → String → String → List Token →
    Except String (List Node × List Token)
  | 0, _, _, _ => Except.error "model: out of fuel"
  | fuel+1, delimiter, end_delimiter, ts =>
    let nt := peekT ts
    if nt.name = end_delimiter then Except.ok ([], (nextT ts).2)
    else parse_list_of_expressions_iter fuel delimiter end_delimiter ts
termination_by structural fuel _ _ _ => fuel

/-- One iteration of the `__parse_list_of_expressions` while loop: parse
an expression, then consume a delimiter and re-enter (the stale `nt`
holding the delimiter never equals the end delimiter), or stop and
consume the end delimiter, or fail. -/
def parse_list_of_expressions_iter : Nat → String → String → List Token →
    Except String (List Node × List Token)
  | 0, _, _, _ => Except.error "model: out of fuel"
  | fuel+1, delimiter, end_delimiter, ts => do
    let (e, ts1) ← parse_expression fuel ts
    let nt1 := peekT ts1
    if nt1.name = delimiter then do
      let (es, ts2) ← parse_list_of_expressions_iter fuel delimiter end_delimiter (nextT ts1).2
      Except.ok (e :: es, ts2)
    else if nt1.name ≠ end_delimiter then
      Except.error ("Semantic Error: Expected delimiter or end delimiter but got " ++ nt1.name)
    else Except.ok ([e], (nextT ts1).2)
termination_by structural fuel _ _ _ => fuel

/-- parser.py `__parse_primary`: primary expressions.  After an
`IDENTIFIER` only the token kinds `LPAREN`, `LBRACKET` and `ASSIGNMENT`
trigger the call, index and assignment parses. -/
def parse_primary : Nat → List Token → Except String (Node × List Token)
  | 0, _ => Except.error "model: out of fuel"
  | fuel+1, ts =>
    let (t, ts1) := nextT ts
    if t.name = "IDENTIFIER" then
      let nt := peekT ts1
      if nt.name = "LPAREN" then do
        let (args, ts2) ← parse_list_of_expressions fuel "COMMA" "RPAREN" (nextT ts1).2
        Except.ok (FunctionCallNode t.value args, ts2)
      else if nt.name = "LBRACKET" then do
        let (index, ts2) ← parse_expression fuel (nextT ts1).2
        let (t2, ts3) := nextT ts2
        if t2.name = "RBRACKET" then
          Except.ok (IndexingNode (Node.atomicNode "identifier" t.value) index, ts3)
        else Except.error ("Expected RBRACKET but got " ++ t2.name)
      else if nt.name = "ASSIGNMENT" then do
        let (rhs, ts2) ← parse_expression fuel (nextT ts1).2
        Except.ok (AssignmentNode t.value rhs, ts2)
      else Except.ok (Node.atomicNode "identifier" t.value, ts1)
    else if t.name = "STRING" ∨ t.name = "NUMBER" ∨ t.name = "BOOLEAN" then
      Except.ok (Node.atomicNode (str_lower t.name) t.value, ts1)
    else if t.name = "KEYWORD" then
      Except.error "Keyword is not implemented!"
    else if t.name = "LPAREN" then do
      let (els, ts2) ← parse_list_of_expressions fuel "COMMA" "RPAREN" ts1
      let nt := peekT ts2
      if nt.name = "RIGHTARROW" then do
        let args ← lambda_params_of els
        let (body, ts3) ← parse_expression fuel (nextT ts2).2
        Except.ok (LambdaFunctionNode args body, ts3)
      else Except.ok (Node.tupleNode els, ts2)
    else if t.name = "LBRACKET" then do
      let (els, ts2) ← parse_list_of_expressions fuel "COMMA" "RBRACKET" ts1
      Except.ok (Node.listNode els, ts2)
    else if t.name = "MINUS" ∨ t.name = "NOT" then do
      let (rhs, ts2) ← parse_expression fuel ts1
      Except.ok (Node.unaryNode t.name rhs, ts2)
    else Except.error ("Semantic Error: Expected primary expression but got " ++ t.name)
termination_by structural fuel _ => fuel

/-- parser.py `__parse_binary_expression`, the Pratt loop: while the next
operator meets the threshold, consume it, parse a primary, climb the inner
loop, and fold a `BinaryNode`. -/
def parse_binary_expression : Nat → Node → Nat → List Token →
    Except String (Node × List Token)
  | 0, _, _, _ => Except.error "model: out of fuel"
  | fuel+1, lhs, precedence, ts =>
    let l := (peekT ts).name
    if outer_loop_cond l precedence then do
      let (opTok, ts1) := nextT ts
      let op := opTok.name
      let (rhs, ts2) ← parse_primary fuel ts1
      let (rhs1, ts3) ← inner_climb fuel rhs op ts2
      parse_binary_expression fuel (Node.binaryNode op lhs rhs1) precedence ts3
    else Except.ok (lhs, ts)
termination_by structural fuel _ _ _ => fuel

/-- The inner while-loop of parser.py lines 137-140: repeatedly recurse for
a higher right-hand operator; the recursive call passes
`precedence_binary_left[l]`, an unguarded dict lookup that raises
`KeyError` whenever the loop was entered for a right-associative `l`. -/
def inner_climb : Nat → Node → String → List Token →
    Except String (Node × List Token)
  | 0, _, _, _ => Except.error "model: out of fuel"
  | fuel+1, rhs, op, ts => do
    let l := (peekT ts).name
    let cond ← inner_climb_cond l op
    if cond then do
      let p ←
        match precedence_binary_left l with
        | some p => Except.ok p
        | none => Except.error ("KeyError: " ++ l)
      let (rhs1, ts1) ← parse_binary_expression fuel rhs p ts
      inner_climb fuel rhs1 op ts1
    else Except.ok (rhs, ts)
termination_by structural fuel _ _ _ => fuel

/-- parser.py `__parse_expression`. -/
def parse_expression : Nat → List Token → Except String (Node × List Token)
  | 0, _ => Except.error "model: out of fuel"
  | fuel+1, ts => do
    let (lhs, ts1) ← parse_primary fuel ts
    parse_binary_expression fuel lhs 0 ts1
termination_by structural fuel _ => fuel

end

/-- parser.py `parse`: expressions until the lexer is done (`is_done` is
peek-token-equals-EOF in the token-list model); the result is the
`Program` node's expression list. -/
def parse : Nat → List Token → Except String (List Node)
  | 0, _ => Except.error "model: out of fuel"
  | fuel+1, ts =>
    if (peekT ts).name = "EOF" then Except.ok []
    else do
      let (e, ts1) ← parse_expression (fuel+1) ts
      let es ← parse (fuel) ts1
      Except.ok (e :: es)

/-- Convenience: identifier token (position 0 for hand-built streams). -/
def identTok (s : String) : Token := ⟨"IDENTIFIER", Payload.s s, 0, 0⟩

/-- Convenience: number token. -/
def numTok (i : Int) : Token := ⟨"NUMBER", Payload.n (PyNum.int i), 0, 0⟩

/-- Convenience: operator/punctuation token. -/
def opTok (name : String) : Token := ⟨name, Payload.s name, 0, 0⟩

/-! ## Runtime values (src/src/atoms.py) and environments

`Environment` is imported by the evaluator from `.environment`, a module
that is not among the sources; it is modelled from the spec (section 3):
a name-to-value mapping plus a parent link and a label; lookup walks
parent links until found or exhausted; `set` writes in the current frame
only.  Frames live in a `Store` and are referenced by index so that
closures share their defining frame, as the spec requires. -/

mutual
/-- A dynamically typed runtime payload: the `value` slot of a `ValueAtom`
(`None` for unit, a boolean, a number, a string, a Python list for both
`tuple` and `list` atoms, or a string-keyed insertion-ordered dict). -/
inductive Value where
  | null
  | bool (b : Bool)
  | num (x : PyNum)
  | str (s : String)
  | list (elements : List Atom)
  | map (entries : List (String × Atom))
  deriving Repr

/-- atoms.py `Atom` and its subclasses: `ValueAtom(valueType, value)`,
`FunctionAtom(argumentNames, body, environment)` — note the constructor
takes no function name — and `BuiltinFunctionAtom(functionName, func)`,
whose host callable is represented by its name (built-ins are opaque
external collaborators per the spec). -/
inductive Atom where
  | valueAtom (valueType : String) (value : Value)
  | functionAtom (argumentNames : List Payload) (body : Node) (environment : Nat)
  | builtinFunctionAtom (functionName : String)
  deriving Repr
end

/-- The `type` attribute of atoms.py: `ValueAtom` stores its `valueType`,
both function classes store `"function"`. -/
def Atom.pyType : Atom → String
  | Atom.valueAtom t _ => t
  | Atom.functionAtom _ _ _ => "function"
  | Atom.builtinFunctionAtom _ => "function"

/-- The default atom used by list lookups whose bounds are established
before access (never observed). -/
def default_atom : Atom := Atom.valueAtom "unit" Value.null

/-- Python `==` on `ValueAtom` payloads (`lhs.value == rhs.value`,
evaluator.py line 275).  Scalar payloads compare by value: numbers
numerically (`1 == 1.0` is true), booleans as the ints Python treats
them as (`True == 1`), strings structurally, `None == None` holds, and
payloads of different Python types compare unequal.  The elements of
`list` payloads (and the values of `map` payloads) are `ValueAtom`
objects, and atoms.py defines no `__eq__`, so Python compares them by
object identity — two separately built equal-content containers compare
false, a container compared against itself true.  Object identity is not
expressible in a value-level model, so the container-against-container
case is a distinguished model-limitation error that no theorem below
relies on. -/
def py_value_eq : Value → Value → Except String Bool
  | Value.null, Value.null => Except.ok true
  | Value.bool a, Value.bool b => Except.ok (a = b)
  | Value.num a, Value.num b => Except.ok (PyNum.numEq a b)
  | Value.bool a, Value.num b => Except.ok (PyNum.numEq (PyNum.int (if a then 1 else 0)) b)
  | Value.num a, Value.bool b => Except.ok (PyNum.numEq a (PyNum.int (if b then 1 else 0)))
  | Value.str a, Value.str b => Except.ok (a = b)
  | Value.list _, Value.list _ =>
    Except.error "model limitation: container equality compares elements by object identity"
  | Value.map _, Value.map _ =>
    Except.error "model limitation: container equality compares elements by object identity"
  | _, _ => Except.ok false

/-- Modelled from the spec: `ValueAtom.raw_str` is called by the evaluator
(string coercion for `+`, map index keys) but missing from atoms.py;
per the spec it is the stringified form of a value (`1` for the number 1,
the text of a string, `true`/`false`, `()` for unit).  Only the scalar
cases are reachable in this development. -/
def raw_str : Nat → Atom → String
  | _, Atom.valueAtom "unit" _ => "()"
  | _, Atom.valueAtom _ (Value.bool b) => if b then "true" else "false"
  | _, Atom.valueAtom _ (Value.num (PyNum.int i)) => toString i
  | _, Atom.valueAtom _ (Value.num (PyNum.float q)) => toString q
  | _, Atom.valueAtom _ (Value.str s) => s
  | fuel+1, Atom.valueAtom t (Value.list xs) =>
    let inner := String.intercalate ", " (xs.map (raw_str fuel))
    if t = "tuple" then "(" ++ inner ++ ")" else "[" ++ inner ++ "]"
  | fuel+1, Atom.valueAtom _ (Value.map es) =>
    "\x7b" ++ String.intercalate ", " (es.map (fun e => e.1 ++ ": " ++ raw_str fuel e.2)) ++ "\x7d"
  | _, Atom.valueAtom _ Value.null => "()"
  | 0, Atom.valueAtom _ (Value.list _) => "[...]"
  | 0, Atom.valueAtom _ (Value.map _) => "\x7b...\x7d"
  | _, Atom.functionAtom _ _ _ => "<lambda>"
  | _, Atom.builtinFunctionAtom n => "<built-in: " ++ n ++ ">"
termination_by structural fuel _ => fuel

/-- Modelled from the spec: an environment frame — a name-to-value mapping
(insertion ordered, like a Python dict), a parent link and a diagnostic
label. -/
structure Frame where
  vars : List (Payload × Atom)
  parent : Option Nat
  label : String

/-- The heap of environment frames; frames are referenced by index so
that closures and nested scopes share one mutable frame. -/
abbrev Store := List Frame

/-- Ordered-dict lookup. -/
def assoc_get : List (Payload × Atom) → Payload → Option Atom
  | [], _ => none
  | (k, v) :: rest, key => if k = key then some v else assoc_get rest key

/-- Ordered-dict write: replace in place or append (Python dict update
keeps the original insertion position of an existing key). -/
def assoc_set : List (Payload × Atom) → Payload → Atom → List (Payload × Atom)
  | [], key, v => [(key, v)]
  | (k, w) :: rest, key, v =>
    if k = key then (k, v) :: rest else (k, w) :: assoc_set rest key v

/-- Modelled from the spec: create a child environment.  New frames are
appended at the end of the store, so parent links always point to
strictly smaller indices ("frames are created strictly downward"). -/
def env_new (label : String) (parent : Option Nat) (st : Store) : Nat × Store :=
  (st.length, st ++ [⟨[], parent, label⟩])

/-- Modelled from the spec: lookup walks parent links until found or
exhausted.  The fuel bounds the walk; since parent indices strictly
decrease, `ref + 1` steps always suffice. -/
def env_lookup : Nat → Store → Nat → Payload → Option Atom
  | 0, _, _, _ => none
  | fuel+1, st, ref, name =>
    match st.getD ref ⟨[], none, ""⟩ with
    | frame =>
      match assoc_get frame.vars name with
      | some v => some v
      | none =>
        match frame.parent with
        | some p => env_lookup fuel st p name
        | none => none

/-- Modelled from the spec: `Environment.get`. -/
def env_get (st : Store) (ref : Nat) (name : Payload) : Option Atom :=
  env_lookup (ref + 1) st ref name

/-- Modelled from the spec: `Environment.set` writes in the current frame
only — there is no search-and-update. -/
def env_set (st : Store) (ref : Nat) (name : Payload) (v : Atom) : Store :=
  match st.get? ref with
  | none => st
  | some frame => st.set ref { frame with vars := assoc_set frame.vars name v }

/-- A store holding just the root environment (frame 0, no builtins
registered). -/
def root_store : Store := [⟨[], none, "global"⟩]

/-! ## Evaluator helpers (src/src/evaluator.py lines 16-79) -/

/-- evaluator.py `compatible_types`: both operands must be `ValueAtom`s
whose type tags lie in `types`; every failure raises (the function never
returns `False`). -/
def compatible_types (lhs rhs : Atom) (types : List String) : Except String Bool :=
  match lhs with
  | Atom.valueAtom _ _ =>
    match rhs with
    | Atom.valueAtom _ _ =>
      if lhs.pyType ∈ types ∧ rhs.pyType ∈ types then Except.ok true
      else Except.error ("Incompatible types: " ++ lhs.pyType ++ " and " ++ rhs.pyType)
    | _ => Except.error "Right hand side in expression is not an atomic value"
  | _ => Except.error "Left hand side in expression is not an atomic value"

/-- evaluator.py `compatible_type`: the one-operand variant. -/
def compatible_type (value : Atom) (types : List String) : Except String Bool :=
  match value with
  | Atom.valueAtom _ _ =>
    if value.pyType ∈ types then Except.ok true
    else Except.error ("Incompatible types: " ++ value.pyType)
  | _ => Except.error "Value is not an atomic value"

/-- evaluator.py `is_identifier`: an atomic node whose kind tag is
`identifier` (ast.py stores the tag as `valueType`; the evaluator reads
it as `type`). -/
def is_identifier : Node → Bool
  | Node.atomicNode t _ => t = "identifier"
  | _ => false

/-- evaluator.py `is_identifier_members`: a `DOT` chain of identifiers
rooted at an identifier. -/
def is_identifier_members : Node → Bool
  | Node.binaryNode op l r =>
    op = "DOT" ∧ (is_identifier l ∨ is_identifier_members l) ∧ is_identifier r
  | _ => false

/-- evaluator.py `is_index_expression`. -/
def is_index_expression : Node → Bool
  | Node.binaryNode op _ _ => op = "INDEX"
  | _ => false

/-- evaluator.py `get_left_most_bin_term`: follow `left` through `op`
nodes to the base of a member expression. -/
def get_left_most_bin_term : Node → String → Node
  | Node.binaryNode op' l r, op =>
    if op' = op then get_left_most_bin_term l op else Node.binaryNode op' l r
  | e, _ => e

/-- The Python attribute access `expression.value`: only atomic nodes
carry a `value`; anything else raises `AttributeError`. -/
def node_value : Node → Except String Payload
  | Node.atomicNode _ v => Except.ok v
  | _ => Except.error "AttributeError: node has no attribute value"

/-- evaluator.py `flatten_bin_terms`: the member path, as the `value`
payloads of the right operands along the `op` spine. -/
def flatten_bin_terms (e : Node) (op : String) (includeBase : Bool) :
    Except String (List Payload) :=
  match e with
  | Node.binaryNode op' l r =>
    if op' = op then do
      let init ← flatten_bin_terms l op includeBase
      let v ← node_value r
      Except.ok (init ++ [v])
    else if includeBase then do
      let v ← node_value (Node.binaryNode op' l r)
      Except.ok [v]
    else Except.ok []
  | e' => if includeBase then do
      let v ← node_value e'
      Except.ok [v]
    else Except.ok []

/-- Python list indexing `xs[i]` with an int index: non-negative indices
from the front, negative indices wrap from the end, anything else raises
`IndexError`. -/
def py_index_int (xs : List Atom) (i : Int) : Except String Atom :=
  let n : Int := xs.length
  if 0 ≤ i ∧ i < n then Except.ok (xs.getD i.toNat default_atom)
  else if -n ≤ i ∧ i < 0 then Except.ok (xs.getD (n + i).toNat default_atom)
  else Except.error "IndexError: index out of range"

/-- Python `container[key]` for the dynamically typed subscript in
`lhs.value[rhs.value]` (evaluator.py line 297): ints (and bools, which
are ints in Python) index lists; floats and strings raise `TypeError`. -/
def py_list_index (xs : List Atom) : Payload → Except String Atom
  | Payload.n (PyNum.int i) => py_index_int xs i
  | Payload.b b => py_index_int xs (if b then 1 else 0)
  | _ => Except.error "TypeError: list indices must be integers"

/-- Python list slicing `xs[start:end:step]` (evaluator.py line 214):
negative bounds wrap, bounds are clamped, a zero step raises. -/
def py_slice (xs : List Atom) (start stop step : Int) : Except String (List Atom) :=
  let n : Int := xs.length
  if step = 0 then Except.error "ValueError: slice step cannot be zero"
  else if step > 0 then
    let s := max 0 (min n (if start < 0 then start + n else start))
    let e := max 0 (min n (if stop < 0 then stop + n else stop))
    let count := if e ≤ s then 0 else ((e - s).toNat + step.toNat - 1) / step.toNat
    Except.ok ((List.range count).map (fun k => xs.getD (s + k * step).toNat default_atom))
  else
    let s := if start < 0 then max (start + n) (-1) else min start (n - 1)
    let e := if stop < 0 then max (stop + n) (-1) else min stop (n - 1)
    let count := if s ≤ e then 0 else ((s - e - 1).toNat / (-step).toNat) + 1
    Except.ok ((List.range count).map (fun k => xs.getD (s + k * step).toNat default_atom))

/-- The `value` payload of a `ValueAtom` known (by a preceding
`compatible_type`) to be a number. -/
def as_num : Atom → Except String PyNum
  | Atom.valueAtom _ (Value.num x) => Except.ok x
  | _ => Except.error "model: expected a numeric payload"

/-- The `value` payload of a `ValueAtom` known to be a bool. -/
def as_bool : Atom → Except String Bool
  | Atom.valueAtom _ (Value.bool b) => Except.ok b
  | _ => Except.error "model: expected a boolean payload"

/-- The Python-list payload of a `ValueAtom` known to be a list or tuple. -/
def as_elements : Atom → Except String (List Atom)
  | Atom.valueAtom _ (Value.list xs) => Except.ok xs
  | _ => Except.error "model: expected a sequence payload"

/-- The dict payload of a `ValueAtom` known to be a map. -/
def as_entries : Atom → Except String (List (String × Atom))
  | Atom.valueAtom _ (Value.map es) => Except.ok es
  | _ => Except.error "model: expected a map payload"

/-- The `value` payload of any `ValueAtom`. -/
def atom_value : Atom → Except String Value
  | Atom.valueAtom _ v => Except.ok v
  | _ => Except.error "model: expected a value atom"

/-- String-keyed dict write with Python update semantics. -/
def assoc_set_str : List (String × Atom) → String → Atom → List (String × Atom)
  | [], key, v => [(key, v)]
  | (k, w) :: rest, key, v =>
    if k = key then (k, v) :: rest else (k, w) :: assoc_set_str rest key v

/-- String-keyed dict lookup. -/
def assoc_get_str : List (String × Atom) → String → Option Atom
  | [], _ => none
  | (k, v) :: rest, key => if k = key then some v else assoc_get_str rest key

/-- The container read `obj.value[p]` in `set_nested_value`: maps are
read by string key, list payloads by int index.  (Python would accept any
hashable dict key; member paths in this development only produce string
and int segments.) -/
def container_get (obj : Atom) (key : Payload) : Except String Atom :=
  match obj with
  | Atom.valueAtom _ (Value.map es) =>
    match key with
    | Payload.s k =>
      match assoc_get_str es k with
      | some v => Except.ok v
      | none => Except.error "KeyError: missing map key"
    | _ => Except.error "KeyError: missing map key"
  | Atom.valueAtom _ (Value.list xs) => py_list_index xs key
  | _ => Except.error "TypeError: object is not subscriptable"

/-- The container write `obj.value[p] = v` in `set_nested_value`. -/
def container_set (obj : Atom) (key : Payload) (v : Atom) : Except String Atom :=
  match obj with
  | Atom.valueAtom t (Value.map es) =>
    match key with
    | Payload.s k => Except.ok (Atom.valueAtom t (Value.map (assoc_set_str es k v)))
    | _ => Except.error "TypeError: unsupported map key"
  | Atom.valueAtom t (Value.list xs) =>
    match key with
    | Payload.n (PyNum.int i) =>
      let n : Int := xs.length
      if 0 ≤ i ∧ i < n then Except.ok (Atom.valueAtom t (Value.list (xs.set i.toNat v)))
      else if -n ≤ i ∧ i < 0 then Except.ok (Atom.valueAtom t (Value.list (xs.set (n + i).toNat v)))
      else Except.error "IndexError: list assignment index out of range"
    | _ => Except.error "TypeError: list indices must be integers"
  | _ => Except.error "TypeError: object does not support item assignment"

/-- evaluator.py `set_nested_value`: descend the member path, writing the
last segment into its container and rebuilding the spine.  (Python
mutates the shared containers in place; the rebuilt value is written back
to the root name by the caller, which is observationally equivalent
except through aliases, which no claim exercises.) -/
def set_nested_value (obj : Atom) (path : List Payload) (rhs : Atom) :
    Except String Atom :=
  match path with
  | [] => Except.error "Member path is empty"
  | [p] => container_set obj p rhs
  | p :: rest => do
    let child ← container_get obj p
    let child1 ← set_nested_value child rest rhs
    container_set obj p child1

/-- The validation loop of evaluator.py lines 176-179: every element of a
named-function parameter tuple must be an identifier atom; collect the
names. -/
def arg_names_of : List Node → Except String (List Payload)
  | [] => Except.ok []
  | Node.atomicNode t v :: rest =>
    if t = "identifier" then do
      let vs ← arg_names_of rest
      Except.ok (v :: vs)
    else Except.error "Function argument is not an identifier"
  | _ :: _ => Except.error "Function argument is not an identifier"

/-- The `AtomicNode` payload as a runtime payload (evaluator.py line 92,
`ValueAtom(expression.type, expression.value)`). -/
def payload_to_value : Payload → Value
  | Payload.null => Value.null
  | Payload.s v => Value.str v
  | Payload.n v => Value.num v
  | Payload.b v => Value.bool v

/-- Modelled from the spec: built-ins are opaque host callables
registered by the driver; none are registered in the environments used in
this development, so this interpretation is never invoked. -/
def builtin_impl (name : String) (_args : List Atom) : Except String Atom :=
  Except.error ("model: built-in not interpreted: " ++ name)

/-! ## The evaluator (src/src/evaluator.py lines 83-355) -/

mutual

/-- evaluator.py `evaluate_expression`: the recursive tree-walker.  The
`isinstance` dispatch chain becomes a match; the structural operators
(`ASSIGNMENT`, `DOT`, slice `INDEX`) are handled before the operands are
evaluated eagerly, exactly as in the source. -/
def evaluate_expression : Nat → Node → Nat → Store → Except String (Atom × Store)
  | 0, _, _, _ => Except.error "model: out of fuel"
  | fuel+1, expression, env, st =>
    match expression with
    | Node.atomicNode t v =>
      if t = "identifier" then
        match env_get st env v with
        | none => Except.error "identifier is not defined"
        | some val => Except.ok (val, st)
      else Except.ok (Atom.valueAtom t (payload_to_value v), st)
    | Node.tupleNode elements =>
      match elements with
      | [] => Except.ok (Atom.valueAtom "unit" Value.null, st)
      | [e] => evaluate_expression fuel e env st
      | es => do
        let (vs, st1) ← evaluate_node_list fuel es env st
        Except.ok (Atom.valueAtom "tuple" (Value.list vs), st1)
    | Node.listNode elements => do
      let (vs, st1) ← evaluate_node_list fuel elements env st
      Except.ok (Atom.valueAtom "list" (Value.list vs), st1)
    | Node.mapNode pairs => do
      let (entries, st1) ← evaluate_map_pairs fuel pairs [] env st
      Except.ok (Atom.valueAtom "map" (Value.map entries), st1)
    | Node.blockNode expressions =>
      let (ref, st1) := env_new "<block>" (some env) st
      evaluate_expressions fuel expressions ref st1
    | Node.lambdaNode params body =>
      Except.ok (Atom.functionAtom params body env, st)
    | Node.ifNode condition ifBody elseIfs elseBody => do
      let (cond, st1) ← evaluate_expression fuel condition env st
      match cond with
      | Atom.valueAtom "bool" (Value.bool b) =>
        if b then evaluate_expression fuel ifBody env st1
        else evaluate_elifs fuel elseIfs elseBody env st1
      | _ => Except.error "Condition does not evaluate to a bool"
    | Node.unaryNode op rhsE => do
      let (rhs, st1) ← evaluate_expression fuel rhsE env st
      if op = "MINUS" then do
        let _ ← compatible_type rhs ["number"]
        let x ← as_num rhs
        Except.ok (Atom.valueAtom "number" (Value.num x.neg), st1)
      else if op = "NOT" then do
        let _ ← compatible_type rhs ["bool"]
        let b ← as_bool rhs
        Except.ok (Atom.valueAtom "bool" (Value.bool (¬ b)), st1)
      else Except.error "Unkown unary operator"
    | Node.binaryNode op left right =>
      if op = "ASSIGNMENT" then
        if is_identifier left then do
          let (rhs, st1) ← evaluate_expression fuel right env st
          let name ← node_value left
          Except.ok (rhs, env_set st1 env name rhs)
        else if is_identifier_members left ∨ is_index_expression left then do
          let op1 := if is_identifier_members left then "DOT" else "INDEX"
          let (rhs, st1) ← evaluate_expression fuel right env st
          let base := get_left_most_bin_term left op1
          if is_identifier base then do
            let bname ← node_value base
            match env_get st1 env bname with
            | none => Except.error "Object is not defined"
            | some obj => do
              let path ← flatten_bin_terms left op1 false
              let obj1 ← set_nested_value obj path rhs
              Except.ok (rhs, env_set st1 env bname obj1)
          else Except.error "Cannot set member of non-identifer values"
        else
          match left with
          | Node.binaryNode "CALL" functionName args =>
            -- Named-function definition, evaluator.py lines 166-185.
            if ¬ is_identifier functionName then
              Except.error "Function name is not an identifier"
            else
              match args with
              | Node.tupleNode els => do
                let _argNames ← arg_names_of els
                -- Line 182 calls FunctionAtom(argNames, body, env,
                -- functionName.value), but atoms.py defines
                -- FunctionAtom.__init__(self, argumentNames, body,
                -- environment) with no name parameter, so the construction
                -- raises TypeError before anything is bound.
                Except.error "TypeError: FunctionAtom.__init__ takes 4 positional arguments but 5 were given"
              | _ => Except.error "Function arguments are not a tuple"
          | _ => Except.error "Invalid assignment, left hand side is not an identifier, function or valid pattern"
      else do
        let (lhs, st1) ← evaluate_expression fuel left env st
        if op = "DOT" then
          if ¬ is_identifier right then
            Except.error "Cannot access member with non-identifier key"
          else
            match lhs with
            | Atom.valueAtom t v =>
              if t = "map" ∨ t = "tuple" ∨ t = "list" then
                if t = "map" then do
                  let key ← node_value right
                  match key with
                  | Payload.s k =>
                    (match v with
                     | Value.map es =>
                       (match assoc_get_str es k with
                        | some r => Except.ok (r, st1)
                        | none => Except.error "Map does not contain key")
                     | _ => Except.error "model: expected a map payload")
                  | _ => Except.error "Map does not contain key"
                else Except.error "Cannot access member, not implemented yet"
              else Except.error "Cannot access member of this type"
            | _ => Except.error "Cannot access member of this type"
        else
          match op, right with
          | "INDEX", Node.sliceNode startE stopE stepE => do
            -- Slice indexing, evaluator.py lines 202-220.
            let (startA, st2) ← evaluate_expression fuel startE env st1
            let (stopA, st3) ← evaluate_expression fuel stopE env st2
            let (stepA, st4) ←
              match stepE with
              | none => Except.ok (Atom.valueAtom "number" (Value.num (PyNum.int 1)), st3)
              | some e => evaluate_expression fuel e env st3
            let _ ← compatible_types startA stopA ["number"]
            let _ ← compatible_type stepA ["number"]
            let s := (← as_num startA).trunc
            let e := (← as_num stopA).trunc
            let p := (← as_num stepA).trunc
            let _ ← compatible_type lhs ["list", "tuple"]
            let xs ← as_elements lhs
            let sliced ← py_slice xs s e p
            if lhs.pyType = "list" then
              Except.ok (Atom.valueAtom "list" (Value.list sliced), st4)
            else
              Except.ok (Atom.valueAtom "tuple" (Value.list sliced), st4)
          | _, _ => do
            let (rhs, st2) ← evaluate_expression fuel right env st1
            let (res, st3) ← evaluate_binary_atom_expression fuel op lhs rhs env st2
            match res with
            | some r => Except.ok (r, st3)
            | none =>
              if op = "PLUSEQUAL" then do
                let _ ← compatible_types lhs rhs ["string", "number"]
                if ¬ is_identifier left then
                  Except.error "Left hand side of mutating assignment operator must be an identifier"
                else do
                  let new_value ←
                    if lhs.pyType = "string" ∨ rhs.pyType = "string" then
                      Except.ok (Atom.valueAtom "string"
                        (Value.str (raw_str fuel lhs ++ raw_str fuel rhs)))
                    else do
                      let a ← as_num lhs
                      let b ← as_num rhs
                      Except.ok (Atom.valueAtom "number" (Value.num (a.add b)))
                  let name ← node_value left
                  Except.ok (new_value, env_set st3 env name new_value)
              else Except.error "Unknown binary operator"
    | _ => Except.error "Unknown expression type"
termination_by structural fuel _ _ _ => fuel

/-- The elif iteration and else fallback of evaluator.py lines 126-134:
conditions are tried in order; with none true the source calls
`evaluate_expression(expression.elseBody, env)`, which for an absent
(`None`) else-body falls through the dispatch chain and raises the
final "Unknown expression type" error. -/
def evaluate_elifs : Nat → List (Node × Node) → Option Node → Nat → Store →
    Except String (Atom × Store)
  | 0, _, _, _, _ => Except.error "model: out of fuel"
  | fuel+1, elifs, elseBody, env, st =>
    match elifs with
    | [] =>
      (match elseBody with
       | some e => evaluate_expression fuel e env st
       | none => Except.error "Unknown expression type")
    | (c, b) :: rest => do
      let (cond, st1) ← evaluate_expression fuel c env st
      match cond with
      | Atom.valueAtom "bool" (Value.bool bv) =>
        if bv then evaluate_expression fuel b env st1
        else evaluate_elifs fuel rest elseBody env st1
      | _ => Except.error "Condition does not evaluate to a bool"
termination_by structural fuel _ _ _ _ => fuel

/-- The element loop `list(map(lambda e: evaluate_expression(e, env), …))`
of the tuple and list literal cases: left-to-right evaluation. -/
def evaluate_node_list : Nat → List Node → Nat → Store →
    Except String (List Atom × Store)
  | 0, _, _, _ => Except.error "model: out of fuel"
  | fuel+1, es, env, st =>
    match es with
    | [] => Except.ok ([], st)
    | e :: rest => do
      let (v, st1) ← evaluate_expression fuel e env st
      let (vs, st2) ← evaluate_node_list fuel rest env st1
      Except.ok (v :: vs, st2)
termination_by structural fuel _ _ _ => fuel

/-- The map-literal loop of evaluator.py lines 103-114: keys must be
atomic; integer-valued number keys are promoted to the `integer` kind;
allowed key kinds are identifier, string, integer and bool; the
stringified key maps to the evaluated value, with dict update semantics. -/
def evaluate_map_pairs : Nat → List (Node × Node) → List (String × Atom) → Nat → Store →
    Except String (List (String × Atom) × Store)
  | 0, _, _, _, _ => Except.error "model: out of fuel"
  | fuel+1, pairs, acc, env, st =>
    match pairs with
    | [] => Except.ok (acc, st)
    | (k, v) :: rest =>
      match k with
      | Node.atomicNode kt kv =>
        let promoted :=
          match kt, kv with
          | "number", Payload.n x =>
            if x.isInteger then ("integer", Payload.n (PyNum.int x.toRat.num)) else (kt, kv)
          | _, _ => (kt, kv)
        if promoted.1 ∈ ["identifier", "string", "integer", "bool"] then do
          let (val, st1) ← evaluate_expression fuel v env st
          evaluate_map_pairs fuel rest (assoc_set_str acc promoted.2.pyStr val) env st1
        else Except.error "Key in map is not an identifier, string, integer or bool"
      | _ => Except.error "Key in map is not an atomic value"
termination_by structural fuel _ _ _ _ => fuel

/-- evaluator.py `evaluate_binary_atom_expression`: the polymorphic
operator dispatch over two evaluated operands; returns `none` when no
branch matches (the caller then tries the compound-assign handling). -/
def evaluate_binary_atom_expression : Nat → String → Atom → Atom → Nat → Store →
    Except String (Option Atom × Store)
  | 0, _, _, _, _, _ => Except.error "model: out of fuel"
  | fuel+1, op, lhs, rhs, env, st =>
    if op = "PLUS" then do
      let _ ← compatible_types lhs rhs ["string", "number", "bool", "list", "tuple", "map"]
      if lhs.pyType = "string" ∨ rhs.pyType = "string" then
        Except.ok (some (Atom.valueAtom "string"
          (Value.str (raw_str fuel lhs ++ raw_str fuel rhs))), st)
      else if lhs.pyType = "list" ∧ rhs.pyType = "list" then do
        let xs ← as_elements lhs
        let ys ← as_elements rhs
        Except.ok (some (Atom.valueAtom "list" (Value.list (xs ++ ys))), st)
      else if lhs.pyType = "number" ∧ rhs.pyType = "number" then do
        let a ← as_num lhs
        let b ← as_num rhs
        Except.ok (some (Atom.valueAtom "number" (Value.num (a.add b))), st)
      else if lhs.pyType = "tuple" ∧ rhs.pyType = "tuple" then do
        let xs ← as_elements lhs
        let ys ← as_elements rhs
        if xs.length ≠ ys.length then Except.error "Tuple size mismatch"
        else do
          let (vs, st1) ← evaluate_plus_pairs fuel (xs.zip ys) env st
          Except.ok (some (Atom.valueAtom "tuple" (Value.list vs)), st1)
      else if lhs.pyType = "map" ∧ rhs.pyType = "map" then do
        let xs ← as_entries lhs
        let ys ← as_entries rhs
        Except.ok (some (Atom.valueAtom "map"
          (Value.map (ys.foldl (fun acc e => assoc_set_str acc e.1 e.2) xs))), st)
      else Except.error "Cannot add these types"
    else if op = "MINUS" then do
      let _ ← compatible_types lhs rhs ["number"]
      let a ← as_num lhs
      let b ← as_num rhs
      Except.ok (some (Atom.valueAtom "number" (Value.num (a.sub b))), st)
    else if op = "MULTIPLY" then do
      let _ ← compatible_types lhs rhs ["number"]
      let a ← as_num lhs
      let b ← as_num rhs
      Except.ok (some (Atom.valueAtom "number" (Value.num (a.mul b))), st)
    else if op = "DIVIDE" then do
      let _ ← compatible_types lhs rhs ["number"]
      let a ← as_num lhs
      let b ← as_num rhs
      let r ← a.div b
      Except.ok (some (Atom.valueAtom "number" (Value.num r)), st)
    else if op = "MODULO" then do
      let _ ← compatible_types lhs rhs ["number"]
      let a ← as_num lhs
      let b ← as_num rhs
      let r ← a.mod b
      Except.ok (some (Atom.valueAtom "number" (Value.num r)), st)
    else if op = "POWER" then do
      let _ ← compatible_types lhs rhs ["number"]
      let a ← as_num lhs
      let b ← as_num rhs
      let r ← a.pow b
      Except.ok (some (Atom.valueAtom "number" (Value.num r)), st)
    else if op = "EQUAL" then do
      let _ ← compatible_types lhs rhs ["number", "string", "bool", "unit", "tuple", "list", "map"]
      if lhs.pyType ≠ rhs.pyType then
        Except.ok (some (Atom.valueAtom "bool" (Value.bool false)), st)
      else do
        let v1 ← atom_value lhs
        let v2 ← atom_value rhs
        let b ← py_value_eq v1 v2
        Except.ok (some (Atom.valueAtom "bool" (Value.bool b)), st)
    else if op = "NOTEQUAL" then do
      let _ ← compatible_types lhs rhs ["number", "string", "bool"]
      let v1 ← atom_value lhs
      let v2 ← atom_value rhs
      let b ← py_value_eq v1 v2
      Except.ok (some (Atom.valueAtom "bool" (Value.bool (¬ b))), st)
    else if op = "LESS" then do
      let _ ← compatible_types lhs rhs ["number"]
      let a ← as_num lhs
      let b ← as_num rhs
      Except.ok (some (Atom.valueAtom "bool" (Value.bool (a.toRat < b.toRat))), st)
    else if op = "GREATER" then do
      let _ ← compatible_types lhs rhs ["number"]
      let a ← as_num lhs
      let b ← as_num rhs
      Except.ok (some (Atom.valueAtom "bool" (Value.bool (a.toRat > b.toRat))), st)
    else if op = "LESSEQUAL" then do
      let _ ← compatible_types lhs rhs ["number"]
      let a ← as_num lhs
      let b ← as_num rhs
      Except.ok (some (Atom.valueAtom "bool" (Value.bool (a.toRat ≤ b.toRat))), st)
    else if op = "GREATEREQUAL" then do
      let _ ← compatible_types lhs rhs ["number"]
      let a ← as_num lhs
      let b ← as_num rhs
      Except.ok (some (Atom.valueAtom "bool" (Value.bool (a.toRat ≥ b.toRat))), st)
    else if op = "AND" then do
      let _ ← compatible_types lhs rhs ["bool"]
      let a ← as_bool lhs
      let b ← as_bool rhs
      Except.ok (some (Atom.valueAtom "bool" (Value.bool (a ∧ b))), st)
    else if op = "OR" then do
      let _ ← compatible_types lhs rhs ["bool"]
      let a ← as_bool lhs
      let b ← as_bool rhs
      Except.ok (some (Atom.valueAtom "bool" (Value.bool (a ∨ b))), st)
    else if op = "RANGE" then do
      let _ ← compatible_types lhs rhs ["number"]
      let a ← as_num lhs
      let b ← as_num rhs
      -- Python range(start, end) requires int arguments; a float (even an
      -- integer-valued one) raises TypeError.
      match a, b with
      | PyNum.int i, PyNum.int j =>
        Except.ok (some (Atom.valueAtom "list" (Value.list
          ((List.range (j - i).toNat).map
            (fun k => Atom.valueAtom "number" (Value.num (PyNum.int (i + k))))))), st)
      | _, _ => Except.error "TypeError: float object cannot be interpreted as an integer"
    else if op = "INDEX" then do
      let _ ← compatible_type lhs ["list", "tuple", "map"]
      match rhs with
      | Atom.valueAtom rt rv =>
        if rt = "number" ∨ rt = "string" ∨ rt = "bool" then
          if lhs.pyType = "list" ∨ lhs.pyType = "tuple" then do
            let xs ← as_elements lhs
            let key ←
              match rv with
              | Value.num x => Except.ok (Payload.n x)
              | Value.str s => Except.ok (Payload.s s)
              | Value.bool b => Except.ok (Payload.b b)
              | _ => Except.error "model: malformed index payload"
            let el ← py_list_index xs key
            Except.ok (some el, st)
          else do
            let es ← as_entries lhs
            let index := raw_str fuel rhs
            match assoc_get_str es index with
            | some el => Except.ok (some el, st)
            | none => Except.error "Map does not contain key"
        else Except.error "Indexing expression does not evaluate to an integer or string"
      | _ => Except.error "Indexing expression is not a valid value type"
    else if op = "CALL" then
      -- Normalize arguments: a tuple unpacks, unit is nullary, anything
      -- else is a single positional argument.
      let args : List Atom :=
        match rhs with
        | Atom.valueAtom "tuple" (Value.list xs) => xs
        | Atom.valueAtom "unit" _ => []
        | a => [a]
      do
        let (r, st1) ← evaluate_call fuel lhs args st
        Except.ok (some r, st1)
    else Except.ok (none, st)
termination_by structural fuel _ _ _ _ _ => fuel

/-- The elementwise `PLUS` of tuple addition (evaluator.py line 255); the
inner call never returns `none` because the operator is `PLUS`. -/
def evaluate_plus_pairs : Nat → List (Atom × Atom) → Nat → Store →
    Except String (List Atom × Store)
  | 0, _, _, _ => Except.error "model: out of fuel"
  | fuel+1, pairs, env, st =>
    match pairs with
    | [] => Except.ok ([], st)
    | (a, b) :: rest => do
      let (r, st1) ← evaluate_binary_atom_expression fuel "PLUS" a b env st
      match r with
      | some v => do
        let (vs, st2) ← evaluate_plus_pairs fuel rest env st1
        Except.ok (v :: vs, st2)
      | none => Except.error "model: PLUS returned no result"
termination_by structural fuel _ _ _ => fuel

/-- evaluator.py `evaluate_call`: dispatch on closure versus built-in. -/
def evaluate_call : Nat → Atom → List Atom → Store → Except String (Atom × Store)
  | 0, _, _, _ => Except.error "model: out of fuel"
  | fuel+1, function, args, st =>
    match function with
    | Atom.functionAtom argumentNames body environment =>
      evaluate_function_atom_call fuel argumentNames body environment args st
    | Atom.builtinFunctionAtom name => do
      let r ← builtin_impl name args
      Except.ok (r, st)
    | _ => Except.error "Cannot call non-function"
termination_by structural fuel _ _ _ => fuel

/-- evaluator.py `evaluate_function_atom_call` (the closure fields are
passed unpacked): build a child environment of the captured one, check
the arity, bind parameters, evaluate the body there.  (The label uses
`function.name`, which the `Atom` base class sets to `"Function"`.) -/
def evaluate_function_atom_call : Nat → List Payload → Node → Nat → List Atom → Store →
    Except String (Atom × Store)
  | 0, _, _, _, _, _ => Except.error "model: out of fuel"
  | fuel+1, argumentNames, body, environment, args, st =>
    let (ref, st1) := env_new "<function Function>" (some environment) st
    if args.length ≠ argumentNames.length then
      Except.error "Function expects a different number of arguments"
    else
      let st2 := (argumentNames.zip args).foldl
        (fun s p => env_set s ref p.1 p.2) st1
      evaluate_expression fuel body ref st2
termination_by structural fuel _ _ _ _ _ => fuel

/-- evaluator.py `evaluate_expressions`: evaluate in order, returning the
last value (`unit` for an empty list). -/
def evaluate_expressions : Nat → List Node → Nat → Store → Except String (Atom × Store)
  | 0, _, _, _ => Except.error "model: out of fuel"
  | fuel+1, expressions, env, st =>
    match expressions with
    | [] => Except.ok (Atom.valueAtom "unit" Value.null, st)
    | [e] => evaluate_expression fuel e env st
    | e :: rest => do
      let (_, st1) ← evaluate_expression fuel e env st
      evaluate_expressions fuel rest env st1
termination_by structural fuel _ _ _ => fuel

end

/-- evaluator.py `evaluate`: reduce a program to the value of its last
top-level expression. -/
def evaluate (fuel : Nat) (program : Node) (env : Nat) (st : Store) :
    Except String (Atom × Store) :=
  match program with
  | Node.programNode expressions => evaluate_expressions fuel expressions env st
  | _ => Except.error "AttributeError: evaluate expects a Program node"

/-! ## Claim theorems -/

/-- The AST of the program `f(x) = x * x; f(5)` in the shape the spec's
parser produces: an assignment whose left side is the call pattern
`Binary(CALL, Atomic(f), Tuple([Atomic(x)]))`, followed by the call
`Binary(CALL, Atomic(f), Tuple([Atomic(5)]))`. -/
def program_c1 : Node := Node.programNode
  [Node.binaryNode "ASSIGNMENT"
    (Node.binaryNode "CALL" (Node.atomicNode "identifier" (Payload.s "f"))
      (Node.tupleNode [Node.atomicNode "identifier" (Payload.s "x")]))
    (Node.binaryNode "MULTIPLY" (Node.atomicNode "identifier" (Payload.s "x"))
      (Node.atomicNode "identifier" (Payload.s "x"))),
   Node.binaryNode "CALL" (Node.atomicNode "identifier" (Payload.s "f"))
    (Node.tupleNode [Node.atomicNode "number" (Payload.n (PyNum.int 5))])]

/-- C1: evaluating the two-expression program `f(x) = x * x; f(5)` does
not succeed with 25: the named-function-definition branch of the
evaluator calls `FunctionAtom(argNames, body, env, functionName.value)`
with a name argument, but atoms.py defines
`FunctionAtom.__init__(self, argumentNames, body, environment)` with no
name parameter, so the very first statement raises `TypeError` (in any
environment — the branch inspects only the AST before constructing). -/
theorem c1_named_function_definition_raises :
    evaluate 30 program_c1 0 root_store =
      Except.error "TypeError: FunctionAtom.__init__ takes 4 positional arguments but 5 were given" := by
  rfl

/-- C2: the lexer classifies the `(` of `f(5)` as `CALL`, but the
parser's primary parse after an `IDENTIFIER` recognizes only `LPAREN`
(parser.py line 78), so the token stream `IDENTIFIER CALL NUMBER RPAREN`
is rejected with "Expected primary expression but got CALL" instead of
producing `Binary(CALL, Atomic(identifier), Tuple(args))`; the same
stream with `LPAREN` is accepted and produces exactly that shape. -/
theorem c2_parser_rejects_call_token :
    (tokenize 99 (lexInit "f(5)")).map (List.map Token.name) =
      Except.ok ["IDENTIFIER", "CALL", "NUMBER", "RPAREN"]
    ∧ parse 99 [identTok "f", opTok "CALL", numTok 5, opTok "RPAREN"] =
      Except.error "Semantic Error: Expected primary expression but got CALL"
    ∧ parse 99 [identTok "f", opTok "LPAREN", numTok 5, opTok "RPAREN"] =
      Except.ok [Node.binaryNode "CALL" (Node.atomicNode "identifier" (Payload.s "f"))
        (Node.tupleNode [Node.atomicNode "number" (Payload.n (PyNum.int 5))])] :=
  ⟨rfl, rfl, rfl⟩

/-- C3: `a - b - c` parses left-associatively as `(a - b) - c`, but
`a && b && c` does not parse right-associatively: the inner climb of the
Pratt loop looks the right-associative operator `AND` up in the
left-associative table (`precedence_binary_left[l]` at parser.py line
139), which raises `KeyError`. -/
theorem c3_associativity :
    parse 99 [identTok "a", opTok "MINUS", identTok "b", opTok "MINUS", identTok "c"] =
      Except.ok [Node.binaryNode "MINUS"
        (Node.binaryNode "MINUS" (Node.atomicNode "identifier" (Payload.s "a"))
          (Node.atomicNode "identifier" (Payload.s "b")))
        (Node.atomicNode "identifier" (Payload.s "c"))]
    ∧ parse 99 [identTok "a", opTok "AND", identTok "b", opTok "AND", identTok "c"] =
      Except.error "KeyError: AND" :=
  ⟨rfl, rfl⟩

/-- C4: an `If` whose condition is the bool `false`, whose elif
conditions (if any) are all `false`, and which has no else-body does not
return `unit`: the evaluator unconditionally calls
`evaluate_expression(expression.elseBody, env)` (evaluator.py line 134),
and for the absent (`None`) else-body that call falls through the
dispatch chain and raises "Unknown expression type". -/
theorem c4_if_without_else_raises :
    evaluate_expression 9
      (Node.ifNode (Node.atomicNode "bool" (Payload.b false))
        (Node.atomicNode "number" (Payload.n (PyNum.int 1))) [] none) 0 root_store =
      Except.error "Unknown expression type"
    ∧ evaluate_expression 9
      (Node.ifNode (Node.atomicNode "bool" (Payload.b false))
        (Node.atomicNode "number" (Payload.n (PyNum.int 1)))
        [(Node.atomicNode "bool" (Payload.b false),
          Node.atomicNode "number" (Payload.n (PyNum.int 2)))] none) 0 root_store =
      Except.error "Unknown expression type" :=
  ⟨rfl, rfl⟩

/-- C5: the lexer turns the literal `true` into a `BOOL` token, but the
parser's literal branch tests for the token name `BOOLEAN` (parser.py
line 93), which the lexer never emits, so a `BOOL` token falls through
every primary branch and parsing fails; `STRING` and `NUMBER` tokens are
accepted and produce `Atomic` nodes of their (lower-cased) kind. -/
theorem c5_bool_token_rejected :
    tokenize 99 (lexInit "true") = Except.ok [⟨"BOOL", Payload.b true, 1, 5⟩]
    ∧ parse 99 [⟨"BOOL", Payload.b true, 1, 5⟩] =
      Except.error "Semantic Error: Expected primary expression but got BOOL"
    ∧ parse 99 [⟨"NUMBER", Payload.n (PyNum.int 5), 1, 2⟩] =
      Except.ok [Node.atomicNode "number" (Payload.n (PyNum.int 5))]
    ∧ parse 99 [⟨"STRING", Payload.s "hi", 1, 4⟩] =
      Except.ok [Node.atomicNode "string" (Payload.s "hi")] :=
  ⟨rfl, rfl, rfl, rfl⟩

/-- C6: whenever `read_token` reads a `(` it emits a `CALL` token if and
only if the previously read character is alphanumeric, `_`, `]`, `}` or
`)` (and `LPAREN` otherwise); under the same condition `[` is emitted as
`INDEX` (and `LBRACKET` otherwise). -/
theorem c6_context_sensitive_brackets :
    ∀ (fuel : Nat) (prev : Option Char) (rest : List Char) (line col : Nat),
    (read_token (fuel+1) ⟨'(' :: rest, prev, line, col⟩).map (fun p => p.1.name) =
      Except.ok (if (match prev with
        | some ch => ch.isAlphanum || ch = '_' || ch = ']' || ch = '}' || ch = ')'
        | none => false) then "CALL" else "LPAREN")
    ∧ (read_token (fuel+1) ⟨'[' :: rest, prev, line, col⟩).map (fun p => p.1.name) =
      Except.ok (if (match prev with
        | some ch => ch.isAlphanum || ch = '_' || ch = ']' || ch = '}' || ch = ')'
        | none => false) then "INDEX" else "LBRACKET") := by
  intro fuel prev rest line col
  have h : (match prev with
      | some ch => ch.isAlphanum || ch = '_' || ch = ']' || ch = '}' || ch = ')'
      | none => false) = is_end_of_expression prev := by
    cases prev <;> rfl
  rw [h]
  constructor <;>
    cases hb : is_end_of_expression prev <;>
      simp [read_token, next_char, peek_char, hb, mk_token, Except.map]

/-- C7: a `Tuple` node with 0 elements evaluates to the unit value, a
`Tuple` with exactly 1 element evaluates to exactly what that element
evaluates to (never a 1-tuple), and a `Tuple` with 2 or more elements
evaluates its elements in order and wraps them as a `tuple` value. -/
theorem c7_tuple_collapse :
    ∀ (fuel env : Nat) (st : Store) (e e1 e2 : Node) (rest : List Node),
    evaluate_expression (fuel+1) (Node.tupleNode []) env st =
      Except.ok (Atom.valueAtom "unit" Value.null, st)
    ∧ evaluate_expression (fuel+1) (Node.tupleNode [e]) env st =
      evaluate_expression fuel e env st
    ∧ evaluate_expression (fuel+1) (Node.tupleNode (e1 :: e2 :: rest)) env st =
      (do
        let (vs, st1) ← evaluate_node_list fuel (e1 :: e2 :: rest) env st
        Except.ok (Atom.valueAtom "tuple" (Value.list vs), st1)) := by
  intro fuel env st e e1 e2 rest
  exact ⟨rfl, rfl, rfl⟩

/-- C8 counterexample: `==` is not defined on function values.  The
`EQUAL` branch admits only the seven data kinds (evaluator.py line 272,
`compatible_types(lhs, rhs, ["number", "string", "bool", "unit",
"tuple", "list", "map"])`), and function atoms are not `ValueAtom`s at
all, so comparing two function values raises instead of returning a
bool; so does comparing a number against a function. -/
theorem c8_function_equality_counterexample :
    evaluate_binary_atom_expression 9 "EQUAL"
      (Atom.functionAtom [] (Node.atomicNode "number" (Payload.n (PyNum.int 1))) 0)
      (Atom.functionAtom [] (Node.atomicNode "number" (Payload.n (PyNum.int 1))) 0)
      0 root_store =
      Except.error "Left hand side in expression is not an atomic value"
    ∧ evaluate_binary_atom_expression 9 "EQUAL"
      (Atom.valueAtom "number" (Value.num (PyNum.int 1)))
      (Atom.functionAtom [] (Node.atomicNode "number" (Payload.n (PyNum.int 1))) 0)
      0 root_store =
      Except.error "Right hand side in expression is not an atomic value" :=
  ⟨rfl, rfl⟩

/-- C8 (amended): `==` is defined for every pair of values whose kinds
are both among the seven data kinds (number, string, bool, unit, tuple,
list, map) — function operands raise a type error instead.  When the
type tags differ it returns bool false with no coercion, and when the
tags agree it returns the Python equality of the payloads: numeric on
numbers (so `1 == 1.0` is true), structural on strings, booleans and
unit; equal-tag container payloads are compared by their elements'
object identity, which the value-level model leaves undetermined
(`py_value_eq` raises its distinguished model-limitation error there,
so nothing is asserted about that case). -/
theorem c8_equal_amended :
    ∀ (fuel : Nat) (t1 t2 : String) (v1 v2 : Value) (env : Nat) (st : Store),
    t1 ∈ ["number", "string", "bool", "unit", "tuple", "list", "map"] →
    t2 ∈ ["number", "string", "bool", "unit", "tuple", "list", "map"] →
    (t1 ≠ t2 →
      evaluate_binary_atom_expression (fuel+1) "EQUAL"
        (Atom.valueAtom t1 v1) (Atom.valueAtom t2 v2) env st =
      Except.ok (some (Atom.valueAtom "bool" (Value.bool false)), st))
    ∧ (t1 = t2 →
      evaluate_binary_atom_expression (fuel+1) "EQUAL"
        (Atom.valueAtom t1 v1) (Atom.valueAtom t2 v2) env st =
      (do
        let b ← py_value_eq v1 v2
        Except.ok (some (Atom.valueAtom "bool" (Value.bool b)), st))) := by
  intro fuel t1 t2 v1 v2 env st h1 h2
  constructor
  · intro hne
    simp [evaluate_binary_atom_expression, compatible_types, Atom.pyType, h1, h2, hne]
    rfl
  · intro heq
    simp [evaluate_binary_atom_expression, compatible_types, Atom.pyType, h1, h2, heq, atom_value]
    rfl

/-- C8 witness: `1 == "1"` is false (differing tags) and `1 == 1.0` is
true (equal tags, numeric payload equality). -/
theorem c8_equal_amended_witness :
    evaluate_binary_atom_expression 9 "EQUAL"
      (Atom.valueAtom "number" (Value.num (PyNum.int 1)))
      (Atom.valueAtom "string" (Value.str "1")) 0 root_store =
      Except.ok (some (Atom.valueAtom "bool" (Value.bool false)), root_store)
    ∧ evaluate_binary_atom_expression 9 "EQUAL"
      (Atom.valueAtom "number" (Value.num (PyNum.int 1)))
      (Atom.valueAtom "number" (Value.num (PyNum.float 1))) 0 root_store =
      Except.ok (some (Atom.valueAtom "bool" (Value.bool true)), root_store) :=
  ⟨(c8_equal_amended 8 "number" "string" (Value.num (PyNum.int 1)) (Value.str "1")
      0 root_store (by decide) (by decide)).1 (by decide),
   (c8_equal_amended 8 "number" "number" (Value.num (PyNum.int 1))
      (Value.num (PyNum.float 1)) 0 root_store (by decide) (by decide)).2 rfl⟩

/-- C9 counterexample: the float `3.0` is an integer-valued number, yet
`3.0 .. 5` does not produce `[3, 4]`: the `RANGE` branch hands the
payloads to Python `range`, which requires ints and raises `TypeError`
on a float (such operands arise from arithmetic, e.g. `1.5 + 1.5`). -/
theorem c9_float_range_counterexample :
    PyNum.isInteger (PyNum.float 3) = true
    ∧ evaluate_binary_atom_expression 9 "RANGE"
      (Atom.valueAtom "number" (Value.num (PyNum.float 3)))
      (Atom.valueAtom "number" (Value.num (PyNum.int 5))) 0 root_store =
      Except.error "TypeError: float object cannot be interpreted as an integer" :=
  ⟨rfl, rfl⟩

/-- C9 (amended): for number operands carrying Python-int payloads (as
the lexer produces for integer literals), `start .. end` yields the list
of the number values `start, start+1, …, end-1` in that order, and the
list is empty whenever `start ≥ end`. -/
theorem c9_integer_range :
    ∀ (fuel : Nat) (i j : Int) (env : Nat) (st : Store),
    evaluate_binary_atom_expression (fuel+1) "RANGE"
      (Atom.valueAtom "number" (Value.num (PyNum.int i)))
      (Atom.valueAtom "number" (Value.num (PyNum.int j))) env st =
    Except.ok (some (Atom.valueAtom "list" (Value.list
      ((List.range (j - i).toNat).map
        (fun k => Atom.valueAtom "number" (Value.num (PyNum.int (i + k))))))), st)
    ∧ (i ≥ j →
      (List.range (j - i).toNat).map
        (fun k => Atom.valueAtom "number" (Value.num (PyNum.int (i + k)))) = []) := by
  intro fuel i j env st
  constructor
  · rfl
  · intro h
    have h0 : (j - i).toNat = 0 := by omega
    simp [h0]

/-- C9 witness: `1 .. 4` yields `[1, 2, 3]` and `4 .. 2` yields the
empty list. -/
theorem c9_integer_range_witness :
    evaluate_binary_atom_expression 9 "RANGE"
      (Atom.valueAtom "number" (Value.num (PyNum.int 1)))
      (Atom.valueAtom "number" (Value.num (PyNum.int 4))) 0 root_store =
      Except.ok (some (Atom.valueAtom "list" (Value.list
        [Atom.valueAtom "number" (Value.num (PyNum.int 1)),
         Atom.valueAtom "number" (Value.num (PyNum.int 2)),
         Atom.valueAtom "number" (Value.num (PyNum.int 3))])), root_store)
    ∧ ((List.range ((2 : Int) - 4).toNat).map
        (fun k => Atom.valueAtom "number" (Value.num (PyNum.int (4 + k)))) = []) :=
  ⟨(c9_integer_range 8 1 4 0 root_store).1,
   (c9_integer_range 8 4 2 0 root_store).2 (by decide)⟩

/-- C10: on a list or tuple value of length n, a non-slice `INDEX` with
an integer index i in `[-n, -1]` succeeds and returns the element at
position n + i; an index in `[0, n)` returns the element at position i;
and the operation fails (with `IndexError`) exactly when `i ≥ n` or
`i < -n`. -/
theorem c10_negative_indexing :
    ∀ (fuel : Nat) (kind : String) (xs : List Atom) (i : Int) (env : Nat) (st : Store),
    (kind = "list" ∨ kind = "tuple") →
    (-(xs.length : Int) ≤ i → i ≤ -1 →
      evaluate_binary_atom_expression (fuel+1) "INDEX"
        (Atom.valueAtom kind (Value.list xs))
        (Atom.valueAtom "number" (Value.num (PyNum.int i))) env st =
      Except.ok (some (xs.getD ((xs.length : Int) + i).toNat default_atom), st))
    ∧ (0 ≤ i → i < (xs.length : Int) →
      evaluate_binary_atom_expression (fuel+1) "INDEX"
        (Atom.valueAtom kind (Value.list xs))
        (Atom.valueAtom "number" (Value.num (PyNum.int i))) env st =
      Except.ok (some (xs.getD i.toNat default_atom), st))
    ∧ ((i ≥ (xs.length : Int) ∨ i < -(xs.length : Int)) →
      evaluate_binary_atom_expression (fuel+1) "INDEX"
        (Atom.valueAtom kind (Value.list xs))
        (Atom.valueAtom "number" (Value.num (PyNum.int i))) env st =
      Except.error "IndexError: index out of range") := by
  intro fuel kind xs i env st hk
  have key : evaluate_binary_atom_expression (fuel+1) "INDEX"
      (Atom.valueAtom kind (Value.list xs))
      (Atom.valueAtom "number" (Value.num (PyNum.int i))) env st =
      (do
        let el ← py_index_int xs i
        Except.ok (some el, st)) := by
    cases hk with
    | inl h => subst h; rfl
    | inr h => subst h; rfl
  refine ⟨?_, ?_, ?_⟩
  · intro h1 h2
    have c1 : ¬(0 ≤ i ∧ i < (xs.length : Int)) := by omega
    have c2 : -(xs.length : Int) ≤ i ∧ i < 0 := by omega
    rw [key]
    simp [py_index_int, c1, c2]
    rfl
  · intro h1 h2
    have c1 : 0 ≤ i ∧ i < (xs.length : Int) := by omega
    rw [key]
    simp [py_index_int, c1]
    rfl
  · intro h
    have c1 : ¬(0 ≤ i ∧ i < (xs.length : Int)) := by omega
    have c2 : ¬(-(xs.length : Int) ≤ i ∧ i < 0) := by omega
    rw [key]
    simp [py_index_int, c1, c2]
    rfl

/-- C10 witness: on the two-element list `[10, 20]`, index `-1` returns
the last element `20`, and index `2` raises `IndexError`. -/
theorem c10_negative_indexing_witness :
    evaluate_binary_atom_expression 9 "INDEX"
      (Atom.valueAtom "list" (Value.list
        [Atom.valueAtom "number" (Value.num (PyNum.int 10)),
         Atom.valueAtom "number" (Value.num (PyNum.int 20))]))
      (Atom.valueAtom "number" (Value.num (PyNum.int (-1)))) 0 root_store =
      Except.ok (some (Atom.valueAtom "number" (Value.num (PyNum.int 20))), root_store)
    ∧ evaluate_binary_atom_expression 9 "INDEX"
      (Atom.valueAtom "list" (Value.list
        [Atom.valueAtom "number" (Value.num (PyNum.int 10)),
         Atom.valueAtom "number" (Value.num (PyNum.int 20))]))
      (Atom.valueAtom "number" (Value.num (PyNum.int 2))) 0 root_store =
      Except.error "IndexError: index out of range" :=
  ⟨(c10_negative_indexing 8 "list"
      [Atom.valueAtom "number" (Value.num (PyNum.int 10)),
       Atom.valueAtom "number" (Value.num (PyNum.int 20))] (-1) 0 root_store
      (Or.inl rfl)).1 (by decide) (by decide),
   (c10_negative_indexing 8 "list"
      [Atom.valueAtom "number" (Value.num (PyNum.int 10)),
       Atom.valueAtom "number" (Value.num (PyNum.int 20))] 2 0 root_store
      (Or.inl rfl)).2.2 (by decide)⟩
